import Mathlib

/-!
Verification of the startup readiness and credential-lifecycle subsystem of
the sbombastic storage service. The Go sources embedded here are
`internal/cmdutil/bootstrap.go` (readiness gate), `cmd/storage/main.go`
(orchestrator, connection factory, migration runner wiring) and the
`internal/apiserver` package (health checker, server construction).
-/

namespace Sbombastic

/-- Errors as produced by the Go code: a leaf message (errors.New) or a
wrapping of an inner error with a context message (fmt.Errorf with %w). -/
inductive GoError where
  | msg : String → GoError
  | wrap : String → GoError → GoError
deriving DecidableEq

/-- One descent of the retry loop of retry.Do (avast/retry-go/v4) with the
options built by retryOptions in internal/cmdutil/bootstrap.go, in the run
where the context is never cancelled. `probe i` is the outcome of the probe
closure on its i-th invocation (0-based): `none` is success, `some e` a
failure with error `e`. The fuel argument is the number of attempts still
allowed. With LastErrorOnly(true), an exhausted run returns only the last
attempt's error. The second component of the result is the total number of
probe invocations performed. -/
def retryDoAux (probe : Nat → Option GoError) (idx : Nat) : Nat → Except GoError Unit × Nat
  | 0 => (Except.error (GoError.msg "retry: zero attempts"), idx)
  | n + 1 =>
    match probe idx with
    | none => (Except.ok (), idx + 1)
    | some e => if n = 0 then (Except.error e, idx + 1) else retryDoAux probe (idx + 1) n

/-- retry.Do with the retryOptions policy: run the probe from attempt 0 with
`attempts` total attempts allowed. -/
def retryDo (probe : Nat → Option GoError) (attempts : Nat) : Except GoError Unit × Nat :=
  retryDoAux probe 0 attempts

/-- retry.Attempts(20) from retryOptions in internal/cmdutil/bootstrap.go. -/
def retryAttempts : Nat := 20

/-- Probe body passed to retry.Do by WaitForPostgres: db.Ping, whose failure
is wrapped as "failed to ping database". `ping i` is the i-th ping outcome. -/
def pgProbe (ping : Nat → Option GoError) (i : Nat) : Option GoError :=
  (ping i).map (GoError.wrap "failed to ping database")

/-- WaitForPostgres (internal/cmdutil/bootstrap.go): retry the ping probe with
retryOptions; on exhaustion wrap the surfaced error as a timeout error.
Returns the outcome together with the number of probe invocations. -/
def WaitForPostgres (ping : Nat → Option GoError) : Except GoError Unit × Nat :=
  let r := retryDo (pgProbe ping) retryAttempts
  match r.1 with
  | Except.ok _ => (Except.ok (), r.2)
  | Except.error e => (Except.error (GoError.wrap "timeout while waiting for Postgres" e), r.2)

/-- Probe body passed to retry.Do by WaitForJetStream: connect to NATS, obtain
the JetStream context, request account info; each step may fail and is wrapped
with its own message, mirroring the closure in internal/cmdutil/bootstrap.go.
The arguments give the outcome of each fallible call on the i-th attempt. -/
def jsProbe (connect jetStreamCtx accountInfo : Nat → Option GoError) (i : Nat) :
    Option GoError :=
  match connect i with
  | some e => some (GoError.wrap "failed to connect to NATS" e)
  | none =>
    match jetStreamCtx i with
    | some e => some (GoError.wrap "JetStream not available" e)
    | none => (accountInfo i).map (GoError.wrap "failed to get JetStream account info")

/-- WaitForJetStream (internal/cmdutil/bootstrap.go): retry the JetStream probe
with retryOptions; on exhaustion wrap the surfaced error as a timeout error. -/
def WaitForJetStream (connect jetStreamCtx accountInfo : Nat → Option GoError) :
    Except GoError Unit × Nat :=
  let r := retryDo (jsProbe connect jetStreamCtx accountInfo) retryAttempts
  match r.1 with
  | Except.ok _ => (Except.ok (), r.2)
  | Except.error e => (Except.error (GoError.wrap "timeout while waiting for JetStream" e), r.2)

/-- Probe body passed to retry.Do by WaitForStorageTypes: the discovery call
ServerResourcesForGroupVersion for group version `gv`, whose failure is
wrapped as "group version not available: gv". -/
def stProbe (gv : String) (serverResources : Nat → Option GoError) (i : Nat) : Option GoError :=
  (serverResources i).map (fun e => GoError.wrap ("group version not available: " ++ gv) e)

/-- WaitForStorageTypes (internal/cmdutil/bootstrap.go): build the HTTP and
discovery clients (either construction may fail, aborting before any probe
runs), then retry the discovery probe with retryOptions; on exhaustion wrap
the surfaced error as a timeout error. -/
def WaitForStorageTypes (gv : String) (httpClientErr discoveryClientErr : Option GoError)
    (serverResources : Nat → Option GoError) : Except GoError Unit × Nat :=
  match httpClientErr with
  | some e => (Except.error (GoError.wrap "failed to create http client" e), 0)
  | none =>
    match discoveryClientErr with
    | some e => (Except.error (GoError.wrap "failed to create discovery client" e), 0)
    | none =>
      let r := retryDo (stProbe gv serverResources) retryAttempts
      match r.1 with
      | Except.ok _ => (Except.ok (), r.2)
      | Except.error e =>
        (Except.error (GoError.wrap "timeout while waiting for storage types" e), r.2)

/-- A parsed X.509 certificate, identified by its DER bytes. -/
structure Cert where
  der : String
deriving DecidableEq

/-- Model of the bytes of a PEM file: the list of certificates parseable from
its PEM blocks (empty when no block holds a parseable certificate). -/
abbrev PEMBytes := List Cert

/-- tls.VersionTLS12 (0x0303). -/
def VersionTLS12 : Nat := 771

/-- Model of crypto/tls Config, restricted to the fields set by newDB. -/
structure TLSConfig where
  rootCAs : List Cert
  serverName : String
  minVersion : Nat
  insecureSkipVerify : Bool
deriving DecidableEq

/-- Model of a pgconn fallback configuration (a secondary host the client
would try, possibly without TLS). -/
structure FallbackConfig where
  host : String
deriving DecidableEq

/-- Model of pgx ConnConfig, restricted to the fields newDB reads or writes:
the host being connected to, the fallback list, and the TLS configuration
(none meaning a cleartext connection). -/
structure ConnConfig where
  host : String
  fallbacks : List FallbackConfig
  tlsConfig : Option TLSConfig
deriving DecidableEq

/-- x509.NewCertPool: an empty pool, holding no system root certificate. -/
def NewCertPool : List Cert := []

/-- x509 CertPool.AppendCertsFromPEM: append every certificate parseable from
the PEM bytes to the pool and report whether at least one was appended. -/
def AppendCertsFromPEM (pool : List Cert) (pem : PEMBytes) : List Cert × Bool :=
  (pool ++ pem, !pem.isEmpty)

/-- The BeforeConnect callback installed by newDB (cmd/storage/main.go):
clear the fallbacks (disable the TLS fallback, forcing TLS), re-read the CA
file from disk (caRead is the outcome of the os.ReadFile at this invocation),
build a fresh pool from an empty x509.NewCertPool, and install a TLS
configuration whose ServerName is the pool-level config.ConnConfig.Host
(poolHost, captured by the closure), with MinVersion TLS 1.2 and
InsecureSkipVerify false. An error aborts the connection attempt. -/
def beforeConnect (poolHost : String) (caRead : Except GoError PEMBytes)
    (connConfig : ConnConfig) : Except GoError ConnConfig :=
  match caRead with
  | Except.error e => Except.error (GoError.wrap "reading database server CA certificate" e)
  | Except.ok serverCA =>
    let res := AppendCertsFromPEM NewCertPool serverCA
    if !res.2 then
      Except.error (GoError.msg "appending database server CA certificate to pool")
    else
      Except.ok ⟨connConfig.host, [], some ⟨res.1, poolHost, VersionTLS12, false⟩⟩

/-- Observable steps of the startup orchestrator run (cmd/storage/main.go):
running the readiness gate (WaitForPostgres), running the migrations
(storage.RunMigrations), and entering runServer (starting the listener). -/
inductive Action where
  | waitGate
  | migrate
  | listen
deriving DecidableEq

/-- Exit code of main: os.Exit(1) when run returns an error, 0 otherwise. -/
def mainExitCode (r : Except GoError Unit) : Nat :=
  match r with
  | Except.error _ => 1
  | Except.ok _ => 0

/-- Model of run (cmd/storage/main.go) after flag parsing and logger setup
(elided: they do not touch the gate/migration/listener control flow): build
the pool with newDB; on the --init path run WaitForPostgres, then
RunMigrations, and return without starting the listener; otherwise call
runServer. Each external step's outcome is a parameter; the result is paired
with the ordered trace of the steps performed. -/
def run (initFlag : Bool) (newDBResult : Except GoError Unit)
    (waitResult : Except GoError Unit) (migrateResult : Except GoError Unit)
    (serverResult : Except GoError Unit) : Except GoError Unit × List Action :=
  match newDBResult with
  | Except.error e => (Except.error (GoError.wrap "connecting to database" e), [])
  | Except.ok _ =>
    if initFlag then
      match waitResult with
      | Except.error e =>
        (Except.error (GoError.wrap "error waiting for postgres" e), [Action.waitGate])
      | Except.ok _ =>
        match migrateResult with
        | Except.error e =>
          (Except.error (GoError.wrap "running migrations" e), [Action.waitGate, Action.migrate])
        | Except.ok _ => (Except.ok (), [Action.waitGate, Action.migrate])
    else
      match serverResult with
      | Except.error e => (Except.error (GoError.wrap "running server" e), [Action.listen])
      | Except.ok _ => (Except.ok (), [Action.listen])

/-- The three DDL statements applied by storage.RunMigrations, in source
order: image table, then sbom table, then vulnerability report table. -/
inductive Stmt where
  | imageTable
  | sbomTable
  | vulnerabilityReportTable
deriving DecidableEq

/-- storage.RunMigrations: execute the three statements sequentially in fixed
order, returning at the first failure with a wrapped error. `exec s` is the
outcome of db.Exec on statement `s`; the result is paired with the ordered
trace of the statements actually executed. -/
def RunMigrations (exec : Stmt → Option GoError) : Except GoError Unit × List Stmt :=
  match exec Stmt.imageTable with
  | some e => (Except.error (GoError.wrap "creating image table" e), [Stmt.imageTable])
  | none =>
    match exec Stmt.sbomTable with
    | some e =>
      (Except.error (GoError.wrap "creating sbom table" e), [Stmt.imageTable, Stmt.sbomTable])
    | none =>
      match exec Stmt.vulnerabilityReportTable with
      | some e =>
        (Except.error (GoError.wrap "creating vulnerability report table" e),
         [Stmt.imageTable, Stmt.sbomTable, Stmt.vulnerabilityReportTable])
      | none =>
        (Except.ok (), [Stmt.imageTable, Stmt.sbomTable, Stmt.vulnerabilityReportTable])

/-- The deadline installed by databaseChecker.Check via
context.WithTimeout(req.Context(), 5*time.Second): the minimum of the
caller's deadline (when the request context has one) and now + 5 seconds.
Times are in seconds. -/
def checkDeadline (now : Nat) (callerDeadline : Option Nat) : Nat :=
  match callerDeadline with
  | none => now + 5
  | some d => min d (now + 5)

/-- databaseChecker.Check (internal/apiserver): a single db.Ping under the
checkDeadline context; a failure is wrapped and returned at once, a success
returns healthy. The result is paired with the number of pings issued. -/
def databaseCheck (ping : Option GoError) : Except GoError Unit × Nat :=
  match ping with
  | some e => (Except.error (GoError.wrap "database not reachable" e), 1)
  | none => (Except.ok (), 1)

/-- NewStorageAPIServer (internal/apiserver), restricted to the step the
serving-credential claim is about: NewDynamicServingContentFromFiles performs
the initial read and parse of the cert and key files and fails on any error
(certKeyLoad is its outcome); on failure construction aborts with a wrapped
error, otherwise the remaining construction steps decide the outcome. -/
def NewStorageAPIServer (certKeyLoad : Except GoError Unit)
    (restOfConstruction : Except GoError Unit) : Except GoError Unit :=
  match certKeyLoad with
  | Except.error e =>
    Except.error (GoError.wrap "error creating dynamic certificate content provider" e)
  | Except.ok _ => restOfConstruction

theorem retryDoAux_allFail (probe : Nat → Option GoError) (e : Nat → GoError)
    (h : ∀ i, probe i = some (e i)) :
    ∀ (n idx : Nat), retryDoAux probe idx (n + 1) = (Except.error (e (idx + n)), idx + n + 1) := by
  intro n
  induction n with
  | zero =>
    intro idx
    simp [retryDoAux, h idx]
  | succ m ih =>
    intro idx
    have hstep : retryDoAux probe idx (m + 1 + 1) = retryDoAux probe (idx + 1) (m + 1) := by
      simp [retryDoAux, h idx]
    rw [hstep, ih (idx + 1)]
    have h1 : idx + 1 + m = idx + (m + 1) := by omega
    rw [h1]

theorem retryDo_allFail (probe : Nat → Option GoError) (e : Nat → GoError)
    (h : ∀ i, probe i = some (e i)) :
    retryDo probe retryAttempts = (Except.error (e 19), 20) := by
  have h19 := retryDoAux_allFail probe e h 19 0
  simpa [retryDo, retryAttempts] using h19

theorem waitForPostgres_allFail (ping : Nat → Option GoError) (p : Nat → GoError)
    (hp : ∀ i, ping i = some (p i)) :
    WaitForPostgres ping =
      (Except.error (GoError.wrap "timeout while waiting for Postgres"
        (GoError.wrap "failed to ping database" (p 19))), 20) := by
  have hbody : ∀ i, pgProbe ping i = some (GoError.wrap "failed to ping database" (p i)) := by
    intro i
    simp [pgProbe, hp i]
  have hr := retryDo_allFail (pgProbe ping)
    (fun i => GoError.wrap "failed to ping database" (p i)) hbody
  simp [WaitForPostgres, hr]

/-- Claim C1: with the policy of retryOptions (20 attempts, LastErrorOnly), a
probe that fails on every invocation is invoked exactly 20 times by each of
WaitForPostgres, WaitForJetStream and WaitForStorageTypes, and the surfaced
timeout error wraps the cause of the 20th (last) failure, not any earlier
failure's cause. -/
theorem C1_retry_exhausts_and_wraps_last
    (ping : Nat → Option GoError) (p : Nat → GoError)
    (hp : ∀ i, ping i = some (p i))
    (connect jetStreamCtx accountInfo : Nat → Option GoError) (j : Nat → GoError)
    (hj : ∀ i, jsProbe connect jetStreamCtx accountInfo i = some (j i))
    (gv : String) (serverResources : Nat → Option GoError) (s : Nat → GoError)
    (hs : ∀ i, serverResources i = some (s i)) :
    WaitForPostgres ping =
      (Except.error (GoError.wrap "timeout while waiting for Postgres"
        (GoError.wrap "failed to ping database" (p 19))), 20) ∧
    WaitForJetStream connect jetStreamCtx accountInfo =
      (Except.error (GoError.wrap "timeout while waiting for JetStream" (j 19)), 20) ∧
    WaitForStorageTypes gv none none serverResources =
      (Except.error (GoError.wrap "timeout while waiting for storage types"
        (GoError.wrap ("group version not available: " ++ gv) (s 19))), 20) := by
  refine ⟨waitForPostgres_allFail ping p hp, ?_, ?_⟩
  · have hr := retryDo_allFail (jsProbe connect jetStreamCtx accountInfo) j hj
    simp [WaitForJetStream, hr]
  · have hbody : ∀ i, stProbe gv serverResources i =
        some (GoError.wrap ("group version not available: " ++ gv) (s i)) := by
      intro i
      simp [stProbe, hs i]
    have hr := retryDo_allFail (stProbe gv serverResources)
      (fun i => GoError.wrap ("group version not available: " ++ gv) (s i)) hbody
    simp [WaitForStorageTypes, hr]

/-- Witness for C1: a concrete always-failing ping probe is invoked 20 times
and the timeout error wraps the last ping failure. -/
theorem C1_retry_exhausts_and_wraps_last_witness :
    WaitForPostgres (fun _ => some (GoError.msg "connection refused")) =
      (Except.error (GoError.wrap "timeout while waiting for Postgres"
        (GoError.wrap "failed to ping database" (GoError.msg "connection refused"))), 20) :=
  (C1_retry_exhausts_and_wraps_last
    (fun _ => some (GoError.msg "connection refused"))
    (fun _ => GoError.msg "connection refused") (fun _ => rfl)
    (fun _ => some (GoError.msg "nats down")) (fun _ => none) (fun _ => none)
    (fun _ => GoError.wrap "failed to connect to NATS" (GoError.msg "nats down"))
    (fun _ => rfl)
    "storage.sbomscanner.kubewarden.io/v1alpha1"
    (fun _ => some (GoError.msg "group not found"))
    (fun _ => GoError.msg "group not found") (fun _ => rfl)).1

theorem beforeConnect_ok (poolHost : String) (certs : PEMBytes) (cc : ConnConfig)
    (h : certs ≠ []) :
    beforeConnect poolHost (Except.ok certs) cc =
      Except.ok ⟨cc.host, [], some ⟨certs, poolHost, VersionTLS12, false⟩⟩ := by
  cases certs with
  | nil => exact absurd rfl h
  | cons c cs => simp [beforeConnect, AppendCertsFromPEM, NewCertPool]

theorem beforeConnect_empty (poolHost : String) (cc : ConnConfig) :
    beforeConnect poolHost (Except.ok []) cc =
      Except.error (GoError.msg "appending database server CA certificate to pool") := by
  simp [beforeConnect, AppendCertsFromPEM, NewCertPool]

/-- Claim C2: every connection the pool establishes has its fallbacks cleared
(no cleartext fallback), a TLS configuration present with minimum version
TLS 1.2, the server name taken from the configured pool host, and certificate
verification enabled — for every incoming per-connection configuration,
hence regardless of any sslmode or ssl* parameter the caller's URI carried
into it. -/
theorem C2_tls_always_enforced (poolHost : String) (caRead : Except GoError PEMBytes)
    (cc ccOut : ConnConfig) (h : beforeConnect poolHost caRead cc = Except.ok ccOut) :
    ccOut.fallbacks = [] ∧
    ccOut.tlsConfig.map TLSConfig.minVersion = some VersionTLS12 ∧
    ccOut.tlsConfig.map TLSConfig.serverName = some poolHost ∧
    ccOut.tlsConfig.map TLSConfig.insecureSkipVerify = some false := by
  cases caRead with
  | error e => simp [beforeConnect] at h
  | ok certs =>
    cases certs with
    | nil => rw [beforeConnect_empty] at h; exact absurd h (by simp)
    | cons c cs =>
      rw [beforeConnect_ok poolHost (c :: cs) cc (by simp)] at h
      have hcc : (⟨cc.host, [], some ⟨c :: cs, poolHost, VersionTLS12, false⟩⟩ : ConnConfig)
          = ccOut := by
        exact Except.ok.inj h
      rw [← hcc]
      simp

/-- Witness for C2: a per-connection configuration arriving with a cleartext
fallback, a foreign server name and verification disabled (as URI parameters
could produce) still leaves beforeConnect with the enforced TLS settings. -/
theorem C2_tls_always_enforced_witness :
    (⟨"db.internal", [], some ⟨[⟨"ca cert"⟩], "db.internal", VersionTLS12, false⟩⟩
        : ConnConfig).fallbacks = [] ∧
    (⟨"db.internal", [], some ⟨[⟨"ca cert"⟩], "db.internal", VersionTLS12, false⟩⟩
        : ConnConfig).tlsConfig.map TLSConfig.minVersion = some VersionTLS12 ∧
    (⟨"db.internal", [], some ⟨[⟨"ca cert"⟩], "db.internal", VersionTLS12, false⟩⟩
        : ConnConfig).tlsConfig.map TLSConfig.serverName = some "db.internal" ∧
    (⟨"db.internal", [], some ⟨[⟨"ca cert"⟩], "db.internal", VersionTLS12, false⟩⟩
        : ConnConfig).tlsConfig.map TLSConfig.insecureSkipVerify = some false :=
  C2_tls_always_enforced "db.internal" (Except.ok [⟨"ca cert"⟩])
    ⟨"db.internal", [⟨"fallback.internal"⟩], some ⟨[], "attacker.example", 0, true⟩⟩
    ⟨"db.internal", [], some ⟨[⟨"ca cert"⟩], "db.internal", VersionTLS12, false⟩⟩ rfl

/-- Claim C3: each invocation of beforeConnect builds the trust pool from the
CA bytes read from disk at that invocation; two connection-open events seeing
different file contents get trust pools built from their respective contents,
so the second connection verifies against the new CA, not the old one. -/
theorem C3_ca_reloaded_per_connection (poolHost : String)
    (certsOld certsNew : PEMBytes) (cc1 cc2 : ConnConfig)
    (hOld : certsOld ≠ []) (hNew : certsNew ≠ []) :
    (beforeConnect poolHost (Except.ok certsOld) cc1).map
        (fun c => c.tlsConfig.map TLSConfig.rootCAs) = Except.ok (some certsOld) ∧
    (beforeConnect poolHost (Except.ok certsNew) cc2).map
        (fun c => c.tlsConfig.map TLSConfig.rootCAs) = Except.ok (some certsNew) ∧
    (certsOld ≠ certsNew →
      (beforeConnect poolHost (Except.ok certsNew) cc2).map
        (fun c => c.tlsConfig.map TLSConfig.rootCAs) ≠ Except.ok (some certsOld)) := by
  refine ⟨?_, ?_, ?_⟩
  · rw [beforeConnect_ok poolHost certsOld cc1 hOld]
    rfl
  · rw [beforeConnect_ok poolHost certsNew cc2 hNew]
    rfl
  · intro hne
    rw [beforeConnect_ok poolHost certsNew cc2 hNew]
    intro hcontra
    apply hne
    have := Except.ok.inj hcontra
    have := Option.some.inj this
    exact this.symm

/-- Witness for C3: after replacing the CA file, the next connection's trust
pool holds exactly the new CA certificate. -/
theorem C3_ca_reloaded_per_connection_witness :
    (beforeConnect "db.internal" (Except.ok [⟨"old ca"⟩]) ⟨"db.internal", [], none⟩).map
        (fun c => c.tlsConfig.map TLSConfig.rootCAs) = Except.ok (some [⟨"old ca"⟩]) ∧
    (beforeConnect "db.internal" (Except.ok [⟨"new ca"⟩]) ⟨"db.internal", [], none⟩).map
        (fun c => c.tlsConfig.map TLSConfig.rootCAs) = Except.ok (some [⟨"new ca"⟩]) :=
  ⟨(C3_ca_reloaded_per_connection "db.internal" [⟨"old ca"⟩] [⟨"new ca"⟩]
      ⟨"db.internal", [], none⟩ ⟨"db.internal", [], none⟩
      (List.cons_ne_nil _ _) (List.cons_ne_nil _ _)).1,
   (C3_ca_reloaded_per_connection "db.internal" [⟨"old ca"⟩] [⟨"new ca"⟩]
      ⟨"db.internal", [], none⟩ ⟨"db.internal", [], none⟩
      (List.cons_ne_nil _ _) (List.cons_ne_nil _ _)).2.1⟩

/-- Claim C9: the trust pool of an established connection is exactly the list
of certificates parsed from the CA file — built from the empty
x509.NewCertPool, so no system root is ever in it and a server certificate
chaining only to a system CA is rejected — and when no certificate is
parseable from the file the connection attempt fails instead of proceeding
with an empty pool. -/
theorem C9_trust_pool_only_from_ca_file (poolHost : String) (certs : PEMBytes)
    (cc : ConnConfig) :
    (∀ ccOut, beforeConnect poolHost (Except.ok certs) cc = Except.ok ccOut →
        ccOut.tlsConfig.map TLSConfig.rootCAs = some certs) ∧
    (certs = [] → beforeConnect poolHost (Except.ok certs) cc =
        Except.error (GoError.msg "appending database server CA certificate to pool")) := by
  constructor
  · intro ccOut h
    cases certs with
    | nil => rw [beforeConnect_empty] at h; exact absurd h (by simp)
    | cons c cs =>
      rw [beforeConnect_ok poolHost (c :: cs) cc (by simp)] at h
      rw [← Except.ok.inj h]
      rfl
  · intro h
    rw [h]
    exact beforeConnect_empty poolHost cc

/-- Witness for C9: a CA file with a single parseable certificate yields a
pool holding exactly that certificate, and an empty CA file fails the
connection attempt. -/
theorem C9_trust_pool_only_from_ca_file_witness :
    (⟨"db.internal", [], some ⟨[⟨"file ca"⟩], "db.internal", VersionTLS12, false⟩⟩
        : ConnConfig).tlsConfig.map TLSConfig.rootCAs = some [⟨"file ca"⟩] ∧
    beforeConnect "db.internal" (Except.ok []) ⟨"db.internal", [], none⟩ =
      Except.error (GoError.msg "appending database server CA certificate to pool") :=
  ⟨(C9_trust_pool_only_from_ca_file "db.internal" [⟨"file ca"⟩] ⟨"db.internal", [], none⟩).1
      ⟨"db.internal", [], some ⟨[⟨"file ca"⟩], "db.internal", VersionTLS12, false⟩⟩ rfl,
   (C9_trust_pool_only_from_ca_file "db.internal" [] ⟨"db.internal", [], none⟩).2 rfl⟩

/-- Claim C10: the ServerName of every connection's TLS configuration is the
pool-level parsed config host captured by the closure (config.ConnConfig.Host),
not the host of the per-connection configuration being prepared: even when the
per-connection host differs (a secondary host of a multi-host URI), the
certificate is verified against the primary host name. -/
theorem C10_servername_from_pool_config (poolHost : String)
    (caRead : Except GoError PEMBytes) (cc ccOut : ConnConfig)
    (h : beforeConnect poolHost caRead cc = Except.ok ccOut) :
    ccOut.tlsConfig.map TLSConfig.serverName = some poolHost ∧
    (cc.host ≠ poolHost → ccOut.tlsConfig.map TLSConfig.serverName ≠ some cc.host) := by
  have hname : ccOut.tlsConfig.map TLSConfig.serverName = some poolHost := by
    cases caRead with
    | error e => simp [beforeConnect] at h
    | ok certs =>
      cases certs with
      | nil => rw [beforeConnect_empty] at h; exact absurd h (by simp)
      | cons c cs =>
        rw [beforeConnect_ok poolHost (c :: cs) cc (by simp)] at h
        rw [← Except.ok.inj h]
        rfl
  refine ⟨hname, ?_⟩
  intro hne hcontra
  rw [hname] at hcontra
  exact hne (Option.some.inj hcontra).symm

/-- Witness for C10: a connection being prepared for host "secondary.internal"
still verifies the server certificate against the pool host
"primary.internal". -/
theorem C10_servername_from_pool_config_witness :
    (⟨"secondary.internal", [],
        some ⟨[⟨"ca cert"⟩], "primary.internal", VersionTLS12, false⟩⟩
      : ConnConfig).tlsConfig.map TLSConfig.serverName = some "primary.internal" :=
  (C10_servername_from_pool_config "primary.internal" (Except.ok [⟨"ca cert"⟩])
    ⟨"secondary.internal", [], none⟩
    ⟨"secondary.internal", [], some ⟨[⟨"ca cert"⟩], "primary.internal", VersionTLS12, false⟩⟩
    rfl).1

/-- Claim C4: in --init mode, if the readiness gate exhausts its 20-attempt
retry budget the process exits non-zero carrying a timeout error and
RunMigrations is never invoked; if the gate succeeds, migrations run and the
process exits without starting the listener. -/
theorem C4_init_gate_gates_migrations
    (mig srv : Except GoError Unit)
    (ping : Nat → Option GoError) (p : Nat → GoError)
    (hp : ∀ i, ping i = some (p i)) :
    (run true (Except.ok ()) (WaitForPostgres ping).1 mig srv =
      (Except.error (GoError.wrap "error waiting for postgres"
        (GoError.wrap "timeout while waiting for Postgres"
          (GoError.wrap "failed to ping database" (p 19)))), [Action.waitGate]) ∧
     mainExitCode (run true (Except.ok ()) (WaitForPostgres ping).1 mig srv).1 = 1 ∧
     Action.migrate ∉ (run true (Except.ok ()) (WaitForPostgres ping).1 mig srv).2) ∧
    ((run true (Except.ok ()) (Except.ok ()) mig srv).2 = [Action.waitGate, Action.migrate] ∧
     Action.listen ∉ (run true (Except.ok ()) (Except.ok ()) mig srv).2) := by
  have hw := waitForPostgres_allFail ping p hp
  have hw1 : (WaitForPostgres ping).1 =
      Except.error (GoError.wrap "timeout while waiting for Postgres"
        (GoError.wrap "failed to ping database" (p 19))) := by
    rw [hw]
  constructor
  · rw [hw1]
    refine ⟨rfl, rfl, ?_⟩
    simp [run]
  · cases mig with
    | error e => exact ⟨rfl, by simp [run]⟩
    | ok u => exact ⟨rfl, by simp [run]⟩

/-- Witness for C4: with a database unreachable on all 20 attempts, the init
run fails with the wrapped timeout error after the gate alone. -/
theorem C4_init_gate_gates_migrations_witness :
    run true (Except.ok ())
        (WaitForPostgres (fun _ => some (GoError.msg "dial tcp: connection refused"))).1
        (Except.ok ()) (Except.ok ()) =
      (Except.error (GoError.wrap "error waiting for postgres"
        (GoError.wrap "timeout while waiting for Postgres"
          (GoError.wrap "failed to ping database"
            (GoError.msg "dial tcp: connection refused")))), [Action.waitGate]) :=
  ((C4_init_gate_gates_migrations (Except.ok ()) (Except.ok ())
    (fun _ => some (GoError.msg "dial tcp: connection refused"))
    (fun _ => GoError.msg "dial tcp: connection refused") (fun _ => rfl)).1).1

/-- Claim C5 counterexample: a serve-mode run (initFlag false) in which the
readiness gate would fail — and in fact never runs — still starts the
listener and returns success, refuting the claim that the listener is never
started without the readiness gate having run and succeeded first. -/
theorem C5_serve_mode_counterexample :
    (run false (Except.ok ()) (Except.error (GoError.msg "postgres down"))
        (Except.ok ()) (Except.ok ())).1 = Except.ok () ∧
    (run false (Except.ok ()) (Except.error (GoError.msg "postgres down"))
        (Except.ok ()) (Except.ok ())).2 = [Action.listen] ∧
    Action.waitGate ∉ (run false (Except.ok ()) (Except.error (GoError.msg "postgres down"))
        (Except.ok ()) (Except.ok ())).2 := by
  refine ⟨rfl, rfl, ?_⟩
  simp [run]

/-- Claim C5 amended: in serve mode the startup orchestrator never runs the
readiness gate; the listener is started directly whenever pool construction
succeeded, and not at all when it failed. -/
theorem C5_serve_mode_no_gate (nd w m s : Except GoError Unit) :
    Action.waitGate ∉ (run false nd w m s).2 ∧
    (nd = Except.ok () → (run false nd w m s).2 = [Action.listen]) ∧
    (∀ e, nd = Except.error e → (run false nd w m s).2 = []) := by
  cases nd with
  | error e =>
    refine ⟨by simp [run], ?_, ?_⟩
    · intro h
      exact absurd h (by simp)
    · intro e2 h
      simp [run]
  | ok u =>
    cases s with
    | error e => exact ⟨by simp [run], fun _ => by simp [run], fun e2 h => by simp at h⟩
    | ok u2 => exact ⟨by simp [run], fun _ => by simp [run], fun e2 h => by simp at h⟩

/-- Witness for C5 amended: with a healthy pool, the serve-mode trace is the
listener alone; with a failed pool construction, nothing runs. -/
theorem C5_serve_mode_no_gate_witness :
    (run false (Except.ok ()) (Except.ok ()) (Except.ok ()) (Except.ok ())).2 =
      [Action.listen] ∧
    (run false (Except.error (GoError.msg "bad URI")) (Except.ok ()) (Except.ok ())
        (Except.ok ())).2 = [] :=
  ⟨(C5_serve_mode_no_gate (Except.ok ()) (Except.ok ()) (Except.ok ())
      (Except.ok ())).2.1 rfl,
   (C5_serve_mode_no_gate (Except.error (GoError.msg "bad URI")) (Except.ok ())
      (Except.ok ()) (Except.ok ())).2.2 (GoError.msg "bad URI") rfl⟩

/-- Claim C6: RunMigrations executes the statements sequentially in the fixed
order image table, sbom table, vulnerability report table, stops at the first
failing statement — statements after it are never executed — and returns a
schema error wrapping that statement's failure. -/
theorem C6_migrations_fixed_order_first_failure (exec : Stmt → Option GoError) :
    (∀ e, exec Stmt.imageTable = some e →
      RunMigrations exec =
        (Except.error (GoError.wrap "creating image table" e), [Stmt.imageTable])) ∧
    (∀ e, exec Stmt.imageTable = none → exec Stmt.sbomTable = some e →
      RunMigrations exec =
        (Except.error (GoError.wrap "creating sbom table" e),
         [Stmt.imageTable, Stmt.sbomTable])) ∧
    (∀ e, exec Stmt.imageTable = none → exec Stmt.sbomTable = none →
      exec Stmt.vulnerabilityReportTable = some e →
      RunMigrations exec =
        (Except.error (GoError.wrap "creating vulnerability report table" e),
         [Stmt.imageTable, Stmt.sbomTable, Stmt.vulnerabilityReportTable])) := by
  refine ⟨?_, ?_, ?_⟩
  · intro e h1
    simp [RunMigrations, h1]
  · intro e h1 h2
    simp [RunMigrations, h1, h2]
  · intro e h1 h2 h3
    simp [RunMigrations, h1, h2, h3]

/-- Witness for C6: a failure on the sbom table statement aborts the run after
the image and sbom statements, wrapping the sbom failure; the vulnerability
report statement is never executed. -/
theorem C6_migrations_fixed_order_first_failure_witness :
    RunMigrations (fun s => match s with
      | Stmt.sbomTable => some (GoError.msg "permission denied")
      | _ => none) =
      (Except.error (GoError.wrap "creating sbom table" (GoError.msg "permission denied")),
       [Stmt.imageTable, Stmt.sbomTable]) :=
  (C6_migrations_fixed_order_first_failure (fun s => match s with
      | Stmt.sbomTable => some (GoError.msg "permission denied")
      | _ => none)).2.1 (GoError.msg "permission denied") rfl rfl

/-- Claim C7 counterexample: the deadline installed by databaseChecker.Check
is context.WithTimeout of the caller's context, hence the minimum of the two
deadlines — with a caller deadline of 2 seconds it equals the caller's
deadline (it is not shorter than it), and it changes when the caller's
deadline changes (it is not independent of it). -/
theorem C7_deadline_counterexample :
    checkDeadline 0 (some 2) = 2 ∧
    ¬ (checkDeadline 0 (some 2) < 2) ∧
    checkDeadline 0 (some 2) ≠ checkDeadline 0 (some 20) := by
  refine ⟨rfl, ?_, ?_⟩ <;> decide

/-- Claim C7 amended: the health check performs exactly one database ping per
call with no internal retries, bounded by a deadline equal to the minimum of
the caller's deadline and 5 seconds from the call (so never more than 5
seconds away and never later than the caller's deadline); a single ping
failure is reported immediately as an error and a successful ping returns
healthy. -/
theorem C7_single_ping_min_deadline (now : Nat) (callerDeadline : Option Nat)
    (ping : Option GoError) :
    (databaseCheck ping).2 = 1 ∧
    checkDeadline now callerDeadline ≤ now + 5 ∧
    (∀ d, callerDeadline = some d → checkDeadline now callerDeadline ≤ d) ∧
    (∀ e, ping = some e →
      (databaseCheck ping).1 = Except.error (GoError.wrap "database not reachable" e)) ∧
    (ping = none → (databaseCheck ping).1 = Except.ok ()) := by
  refine ⟨?_, ?_, ?_, ?_, ?_⟩
  · cases ping <;> rfl
  · cases callerDeadline with
    | none => simp [checkDeadline]
    | some d => simp [checkDeadline]
  · intro d hd
    rw [hd]
    simp [checkDeadline]
  · intro e he
    rw [he]
    rfl
  · intro h
    rw [h]
    rfl

/-- Witness for C7 amended: a failed ping under a 10-second caller deadline is
reported at once, with one ping and a deadline of at most 5 seconds that does
not exceed the caller's. -/
theorem C7_single_ping_min_deadline_witness :
    (databaseCheck (some (GoError.msg "no route to host"))).2 = 1 ∧
    checkDeadline 0 (some 10) ≤ 0 + 5 ∧
    checkDeadline 0 (some 10) ≤ 10 ∧
    (databaseCheck (some (GoError.msg "no route to host"))).1 =
      Except.error (GoError.wrap "database not reachable" (GoError.msg "no route to host")) :=
  ⟨(C7_single_ping_min_deadline 0 (some 10) (some (GoError.msg "no route to host"))).1,
   (C7_single_ping_min_deadline 0 (some 10) (some (GoError.msg "no route to host"))).2.1,
   (C7_single_ping_min_deadline 0 (some 10) (some (GoError.msg "no route to host"))).2.2.1
      10 rfl,
   (C7_single_ping_min_deadline 0 (some 10) (some (GoError.msg "no route to host"))).2.2.2.1
      (GoError.msg "no route to host") rfl⟩

/-- Claim C8: when the initial read or parse of the serving certificate and
key files fails, construction of the serving credential store and hence of the
storage API server fails with a wrapped error — it never succeeds silently,
whatever the remaining construction steps would have produced. -/
theorem C8_initial_cert_load_failure_is_fatal (e : GoError)
    (restOfConstruction : Except GoError Unit) :
    NewStorageAPIServer (Except.error e) restOfConstruction =
      Except.error (GoError.wrap "error creating dynamic certificate content provider" e) ∧
    NewStorageAPIServer (Except.error e) restOfConstruction ≠ Except.ok () := by
  refine ⟨rfl, ?_⟩
  simp [NewStorageAPIServer]

/-- Witness for C8: an unreadable certificate file at construction time makes
the server constructor return the wrapped error. -/
theorem C8_initial_cert_load_failure_is_fatal_witness :
    NewStorageAPIServer (Except.error (GoError.msg "no such file or directory"))
        (Except.ok ()) =
      Except.error (GoError.wrap "error creating dynamic certificate content provider"
        (GoError.msg "no such file or directory")) :=
  (C8_initial_cert_load_failure_is_fatal (GoError.msg "no such file or directory")
    (Except.ok ())).1

end Sbombastic
